import Mathlib

/-!
Verification of the git-karaoke-api caching / orchestration layer.

This file shallowly embeds the parts of the repository that the verified
properties talk about:

* `generateRequestHashInput` — the request fingerprint of
  `GithubService.#generateRequestHash` / `SunoService.#generateRequestHash`.
  Both build the string `service:method:endpoint:JSON.stringify(params)` and
  feed it to `crypto.createHash('md5')`.  The md5 digest is a fixed
  deterministic function of that string, so fingerprint equality coincides
  with equality of these input strings (up to md5 collisions, which is the
  "overwhelming probability" caveat of the specification); we therefore
  reason at the level of the hash input.  Every request-parameter object in
  the repository is a flat JSON object, so parameters are modelled as
  insertion-ordered association lists of JSON primitives, exactly the shape
  `JSON.stringify` serializes key-by-key in insertion order.

* `cachedApiCall` — the cached call operation `#cachedApiCall` shared (up to
  the service name, the default rate limit and the error wrapping) by
  `src/services/suno.service.js` and the github service.  The database is an
  explicit state (`DBState`); the live network call and the possible failure
  of the success-path cache upsert are inputs (`CallEnv`).  Timestamp-only
  bookkeeping columns of the `ApiCall` table (`request_time`,
  `response_time`, `duration`, `created_at`, `updated_at`) play no role in
  any verified property and are elided from the record.

* `adjustContent` — the token-budget trimming loop of `AIService`.  The
  token estimator is the external `openai-chat-tokens` package, so it is a
  parameter of the embedding.

* `chunkTextByTokens` — the chunker of `KaraokeService`.

* `handleSunoCallback`, `handleSunoCallbackLyrics`,
  `generateSongFromRepoTail` — the callback handlers and the tail of the
  song-generation pipeline of `src/services/karaoke.service.js`, with the
  persistent `Song` / `AudioFile` tables as explicit state and the external
  storage collaborator modelled as a pure constructor of attachments.
-/

/-! ## Keyed list stores (prisma `findUnique` / `upsert` on a unique key) -/

/-- Lookup by a string key: the model of prisma `findUnique({ where: key })`
on a table with a unique key column. -/
def findByKey {α : Type} (key : α → String) : List α → String → Option α
  | [], _ => none
  | x :: xs, k => if key x = k then some x else findByKey key xs k

/-- Upsert by a string key: the model of prisma `upsert({ where, update,
create })` on a table with a unique key column.  The first row matching the
key is updated in place; if none matches, the created row is appended. -/
def upsertByKey {α : Type} (key : α → String) (upd : α → α) (created : α) :
    List α → String → List α
  | [], _ => [created]
  | x :: xs, k => if key x = k then upd x :: xs else x :: upsertByKey key upd created xs k

theorem findByKey_upsertByKey_self {α : Type} (key : α → String) (upd : α → α)
    (created : α) (l : List α) (k : String)
    (hc : key created = k) (hu : ∀ x, key (upd x) = key x) :
    findByKey key (upsertByKey key upd created l k) k =
      some (match findByKey key l k with
            | some x => upd x
            | none => created) := by
  induction l with
  | nil => simp [findByKey, upsertByKey, hc]
  | cons x xs ih =>
    by_cases hx : key x = k
    · simp [findByKey, upsertByKey, hx, hu]
    · simp [findByKey, upsertByKey, hx, ih]

theorem findByKey_map {α : Type} (key : α → String) (f : α → α)
    (hp : ∀ x, key (f x) = key x) (l : List α) (k : String) :
    findByKey key (l.map f) k = (findByKey key l k).map f := by
  induction l with
  | nil => simp [findByKey]
  | cons x xs ih =>
    by_cases hx : key x = k
    · simp [findByKey, hp, hx]
    · simp [findByKey, hp, hx, ih]

/-! ## Request fingerprints (`#generateRequestHash`) -/

/-- A primitive JSON value, as found in the repository's request-parameter
objects (all of them are flat objects of strings, numbers and booleans). -/
inductive JPrim where
  | jnull : JPrim
  | jbool : Bool → JPrim
  | jnum : Int → JPrim
  | jstr : String → JPrim
deriving DecidableEq, Repr

/-- `JSON.stringify` escaping of one character (quote and backslash; control
characters never occur in the parameters the repository builds). -/
def escapeJsonChar (c : Char) : String :=
  if c = '"' then "\\\"" else if c = '\\' then "\\\\" else String.singleton c

/-- `JSON.stringify` escaping of a string body. -/
def escapeJson (s : String) : String :=
  String.join (s.data.map escapeJsonChar)

/-- `JSON.stringify` of a primitive value. -/
def JPrim.stringify : JPrim → String
  | JPrim.jnull => "null"
  | JPrim.jbool true => "true"
  | JPrim.jbool false => "false"
  | JPrim.jnum n => toString n
  | JPrim.jstr s => "\"" ++ escapeJson s ++ "\""

/-- The comma-separated field list of `JSON.stringify` of a flat object,
in insertion order — JavaScript serializes object keys in insertion order,
it does not sort them. -/
def stringifyPairs : List (String × JPrim) → String
  | [] => ""
  | [(k, v)] => "\"" ++ escapeJson k ++ "\":" ++ v.stringify
  | (k, v) :: rest =>
      "\"" ++ escapeJson k ++ "\":" ++ v.stringify ++ "," ++ stringifyPairs rest

/-- `JSON.stringify` of a flat parameter object. -/
def stringifyParams (ps : List (String × JPrim)) : String :=
  "\x7b" ++ stringifyPairs ps ++ "\x7d"

/-- The exact string `#generateRequestHash` feeds to
`crypto.createHash('md5')`: `service:method:endpoint:JSON.stringify(params)`
(`github:` in `github.service.js`, `suno:` in `suno.service.js`).  The md5
digest is a fixed deterministic function of this string. -/
def generateRequestHashInput (service method endpoint : String)
    (params : List (String × JPrim)) : String :=
  service ++ ":" ++ method ++ ":" ++ endpoint ++ ":" ++ stringifyParams params

/-! ## The cached call operation (`#cachedApiCall`) -/

/-- A row of the `ApiCall` table.  Timestamp-only bookkeeping columns
(`request_time`, `response_time`, `duration`, `created_at`, `updated_at`)
are elided; response payloads are modelled opaquely by their serialized
text. -/
structure ApiCallRec where
  service : String
  endpoint : String
  method : String
  params : String
  request_hash : String
  response : Option String
  status_code : Nat
  is_success : Bool
  error_message : Option String
  expires_at : Option Nat
deriving DecidableEq, Repr

/-- A row of the `ApiLimit` table (`requests_reset`, `created_at`,
`updated_at` elided — no verified property mentions them). -/
structure ApiLimitRec where
  service : String
  requests_limit : Nat
  requests_used : Nat
  is_active : Bool
deriving DecidableEq, Repr

/-- The persistent state the cached call operation touches. -/
structure DBState where
  apiCalls : List ApiCallRec
  apiLimits : List ApiLimitRec
deriving DecidableEq, Repr

/-- The options object of `#cachedApiCall` (`cacheHours`, `disableCache`);
the github variant has no `disableCache` option, callers of the model pass
`false` there. -/
structure CallOptions where
  cacheHours : Nat
  disableCache : Bool
deriving DecidableEq, Repr

/-- A successful axios response: its `data` (serialized) and `status`. -/
structure LiveResp where
  data : String
  status : Nat
deriving DecidableEq, Repr

/-- A failed axios call: `error.message`, `error.response?.status`,
`error.response?.data`. -/
structure LiveErr where
  message : String
  status : Option Nat
  data : Option String
deriving DecidableEq, Repr

deriving instance DecidableEq for Except

/-- The non-deterministic surroundings of one `#cachedApiCall` invocation:
the current time, what the live network call would produce, whether the
success-path `apiCall.upsert` throws (and with which message), and whether
the `apiLimit.upsert` inside `#updateApiLimit` succeeds.  The failure-path
`apiCall.upsert` and the cache read are assumed to succeed. -/
structure CallEnv where
  now : Nat
  live : Except LiveErr LiveResp
  cacheWriteErr : Option String
  limitWriteOk : Bool

/-- The outcome of one `#cachedApiCall` invocation: the value returned (or
the error thrown), the database afterwards, and whether the live network
call was executed. -/
structure CallOutcome where
  result : Except String (Option String)
  db : DBState
  liveInvoked : Bool
deriving DecidableEq, Repr

/-- `#updateApiLimit`: increment `requests_used` for the service, creating
the counter with the service's default limit when absent. -/
def updateApiLimit (limits : List ApiLimitRec) (service : String)
    (defaultLimit : Nat) : List ApiLimitRec :=
  upsertByKey ApiLimitRec.service
    (fun l => { l with requests_used := l.requests_used + 1 })
    { service := service, requests_limit := defaultLimit, requests_used := 1,
      is_active := true }
    limits service

/-- The `requests_used` counter currently recorded for a service (0 when no
row exists yet). -/
def requestsUsedFor (limits : List ApiLimitRec) (service : String) : Nat :=
  match findByKey ApiLimitRec.service limits service with
  | some l => l.requests_used
  | none => 0

/-- The cache-hit test of `#cachedApiCall`: a stored row is served when it
exists, `is_success` is set, and `expires_at` is null or in the future. -/
def freshCacheHit (calls : List ApiCallRec) (hash : String) (now : Nat) :
    Option ApiCallRec :=
  match findByKey ApiCallRec.request_hash calls hash with
  | some c =>
      if c.is_success && (match c.expires_at with
                          | none => true
                          | some t => decide (now < t)) then some c else none
  | none => none

/-- The `catch` branch of `#cachedApiCall`: upsert the failed call.  The
`update` branch does not list `expires_at`, so an existing row keeps its old
expiry; the `create` branch leaves it null. -/
def recordFailedCall (service method endpoint : String)
    (requestData : List (String × JPrim)) (requestHash : String)
    (msg : String) (status : Option Nat) (rdata : Option String)
    (db : DBState) : DBState :=
  let statusCode := status.getD 500
  { db with apiCalls :=
      (upsertByKey ApiCallRec.request_hash
        (fun r => { r with status_code := statusCode, is_success := false,
                           error_message := some msg, response := rdata })
        { service := service, endpoint := endpoint, method := method.toUpper,
          params := stringifyParams requestData, request_hash := requestHash,
          response := rdata, status_code := statusCode, is_success := false,
          error_message := some msg, expires_at := none }
        db.apiCalls requestHash) }

/-- `#cachedApiCall` (suno.service.js lines 84-215; github.service.js is the
same operation with `service = "github"`, default limit 5000, no
`disableCache` option and the raw error rethrown instead of the wrapped
one — the differences are the three leading parameters).

Steps, as in the source: build the fingerprint; unless the cache is
disabled, serve a fresh successful row as-is (no live call, no counter
change); otherwise run the live call; on success upsert the response with
`expires_at = now + cacheHours` (null when `cacheHours` is 0, i.e. falsy)
and increment the rate counter, swallowing a counter-update failure; on any
thrown error — a live-call failure or a success-path upsert failure — the
`catch` block upserts a failed row and rethrows `wrapError` of the
message. -/
def cachedApiCall (service : String) (defaultLimit : Nat)
    (wrapError : String → String) (method endpoint : String)
    (requestData : List (String × JPrim)) (opts : CallOptions)
    (env : CallEnv) (db : DBState) : CallOutcome :=
  let requestHash := generateRequestHashInput service method endpoint requestData
  let hit := if opts.disableCache then none
             else freshCacheHit db.apiCalls requestHash env.now
  match hit with
  | some c => { result := Except.ok c.response, db := db, liveInvoked := false }
  | none =>
    match env.live with
    | Except.ok resp =>
      let expiresAt := if opts.cacheHours = 0 then none
                       else some (env.now + opts.cacheHours * 3600000)
      match env.cacheWriteErr with
      | none =>
        let db1 : DBState := { db with apiCalls :=
          (upsertByKey ApiCallRec.request_hash
            (fun r => { r with response := some resp.data,
                               status_code := resp.status,
                               expires_at := expiresAt, is_success := true,
                               error_message := none })
            { service := service, endpoint := endpoint,
              method := method.toUpper,
              params := stringifyParams requestData,
              request_hash := requestHash, response := some resp.data,
              status_code := resp.status, is_success := true,
              error_message := none, expires_at := expiresAt }
            db.apiCalls requestHash) }
        let db2 : DBState :=
          if env.limitWriteOk then
            { db1 with apiLimits := updateApiLimit db1.apiLimits service defaultLimit }
          else db1
        { result := Except.ok (some resp.data), db := db2, liveInvoked := true }
      | some werr =>
        { result := Except.error (wrapError werr),
          db := recordFailedCall service method endpoint requestData
                  requestHash werr none none db,
          liveInvoked := true }
    | Except.error e =>
      { result := Except.error (wrapError e.message),
        db := recordFailedCall service method endpoint requestData
                requestHash e.message e.status e.data db,
        liveInvoked := true }

/-- `SunoService.#cachedApiCall`: service `suno`, default limit 1000,
errors wrapped as `Suno API call failed: ...`. -/
def sunoCachedApiCall (method endpoint : String)
    (requestData : List (String × JPrim)) (opts : CallOptions)
    (env : CallEnv) (db : DBState) : CallOutcome :=
  cachedApiCall "suno" 1000 (fun m => "Suno API call failed: " ++ m)
    method endpoint requestData opts env db

/-- `SunoService.getTaskDetails`: validates `taskId`, then calls
`#cachedApiCall` with `finalOptions = { ...options, disableCache: true }` —
the cache is force-skipped regardless of the caller's options. -/
def getTaskDetails (taskId : String) (opts : CallOptions) (env : CallEnv)
    (db : DBState) : CallOutcome :=
  if taskId = "" then
    { result := Except.error "Missing parameter: taskId", db := db,
      liveInvoked := false }
  else
    sunoCachedApiCall "GET" "/v1/generate/record-info"
      [("taskId", JPrim.jstr taskId)]
      { cacheHours := opts.cacheHours, disableCache := true } env db

/-- `SunoService.getLyricsTaskDetails`: same forced `disableCache: true`
against the lyrics record-info endpoint. -/
def getLyricsTaskDetails (taskId : String) (opts : CallOptions) (env : CallEnv)
    (db : DBState) : CallOutcome :=
  if taskId = "" then
    { result := Except.error "Missing parameter: taskId", db := db,
      liveInvoked := false }
  else
    sunoCachedApiCall "GET" "/v1/lyrics/record-info"
      [("taskId", JPrim.jstr taskId)]
      { cacheHours := opts.cacheHours, disableCache := true } env db

/-! ## The context assembler (`AIService.adjustContent`) -/

/-- One chat message.  Content is a character list; JavaScript `.length`,
`.slice` and `.shift` act on it exactly as `List.length`, `List.take` and
`List.tail` do here. -/
structure ChatMsg where
  role : String
  content : List Char
deriving DecidableEq, Repr

/-- The message array `adjustContent` re-estimates on every iteration:
`[{ role: system }, ...history, { role: user, content: prompt }]`. -/
def msgsOf (system : List Char) (history : List ChatMsg) (prompt : List Char) :
    List ChatMsg :=
  { role := "system", content := system } :: history ++
    [{ role := "user", content := prompt }]

/-- The trimming loop of `AIService.adjustContent`.  `fuel` counts the
remaining trimming iterations (the source caps `iteration` at
`maxIterations = 100` and breaks past the cap); one recursive call is one
loop iteration.  The token estimator (`promptTokensEstimate` of the external
`openai-chat-tokens` package) is a parameter.  Per iteration, when the
estimate still exceeds the target: drop the oldest history entry while more
than one remains, else trim the system prompt from the end down to a floor
of 50 characters by `min(charsToRemove, length - 50)` where
`charsToRemove = ceil(tokensOver * 0.5) * 4`, else trim the user prompt the
same way, else break. -/
def adjustGo (estimate : List ChatMsg → Nat) (targetTokens : Nat) :
    Nat → List Char → List ChatMsg → List Char →
      (List Char × List ChatMsg × List Char) × Nat
  | 0, system, history, prompt => ((system, history, prompt), 0)
  | fuel + 1, system, history, prompt =>
    let currentTokens := estimate (msgsOf system history prompt)
    if currentTokens ≤ targetTokens then ((system, history, prompt), fuel + 1)
    else
      let tokensOver := currentTokens - targetTokens
      let chunkSize := (tokensOver + 1) / 2
      let charsToRemove := chunkSize * 4
      if 1 < history.length then
        adjustGo estimate targetTokens fuel system history.tail prompt
      else if 50 < system.length then
        let trimLength := min charsToRemove (system.length - 50)
        adjustGo estimate targetTokens fuel
          (system.take (system.length - trimLength)) history prompt
      else if 50 < prompt.length then
        let trimLength := min charsToRemove (prompt.length - 50)
        adjustGo estimate targetTokens fuel
          system history (prompt.take (prompt.length - trimLength))
      else ((system, history, prompt), fuel + 1)

/-- `AIService.adjustContent`: run the trimming loop with the cap of 100
iterations and return the possibly-trimmed (system, history, prompt). -/
def adjustContent (estimate : List ChatMsg → Nat) (system : List Char)
    (history : List ChatMsg) (prompt : List Char) (contextWindow : Nat) :
    List Char × List ChatMsg × List Char :=
  (adjustGo estimate contextWindow 100 system history prompt).1

/-- The minimum-floor state of a trimmed triple: history down to at most one
entry, system prompt and user prompt at or below the 50-character floor. -/
def floorState (r : List Char × List ChatMsg × List Char) : Prop :=
  r.2.1.length ≤ 1 ∧ r.1.length ≤ 50 ∧ r.2.2.length ≤ 50

instance (r : List Char × List ChatMsg × List Char) : Decidable (floorState r) := by
  unfold floorState; infer_instance

/-! ## The chunker (`KaraokeService.chunkTextByTokens`) -/

/-- The slicing loop of `chunkTextByTokens`: repeatedly slice off the next
`maxChars` characters until the text is exhausted.  `fuel` bounds the loop;
`chunkTextByTokens` supplies `text.length`, which suffices whenever
`0 < maxChars` (with `maxChars = 0` the source loops forever). -/
def chunkAux (maxChars : Nat) : Nat → List Char → List (List Char)
  | 0, _ => []
  | _, [] => []
  | fuel + 1, text => text.take maxChars :: chunkAux maxChars fuel (text.drop maxChars)

/-- `KaraokeService.chunkTextByTokens`: split `text` into consecutive slices
of at most `maxTokens * 4` characters (`approxCharsPerToken = 4`). -/
def chunkTextByTokens (text : List Char) (maxTokens : Nat) : List (List Char) :=
  chunkAux (maxTokens * 4) text.length text

/-! ## The karaoke service (`karaoke.service.js`) -/

/-- One track of a Suno callback payload (`callbackData.data.data[i]`);
fields not read by the handlers are elided. -/
structure SunoTrack where
  id : String
  audio_url : Option String
deriving DecidableEq, Repr

/-- The `data` field of a Suno callback (`task_id`, `callbackType`, the
track array).  A callback whose `data` field is missing is modelled as
`none` at the call sites. -/
structure SunoCallbackPayload where
  task_id : String
  callbackType : String
  tracks : List SunoTrack
deriving DecidableEq, Repr

/-- An attachment returned by the external storage collaborator
(`UploadService`), modelled as a pure constructor from the source URL;
`url` stands for the stored location. -/
structure Attachment where
  url : String
deriving DecidableEq, Repr

/-- A row of the `AudioFile` table (only the columns the verified
properties mention). -/
structure AudioFileRec where
  url : String
  song_id : Nat
  suno_audio_id : Option String
deriving DecidableEq, Repr

/-- A row of the `Song` table (columns the handlers read or write;
`suno_task_id` is the unique key the callback handlers look up). -/
structure Song where
  id : Nat
  suno_task_id : String
  title : String
  lyrics : String
  style : String
  instrumental : Bool
  status : String
  completed_at : Option Nat
  cover_image_url : Option String
deriving DecidableEq, Repr

/-- The persistent state the karaoke service touches. -/
structure KaraokeDB where
  songs : List Song
  audioFiles : List AudioFileRec
deriving DecidableEq, Repr

/-- prisma `song.update({ where: { id } })`: update the row with the given
primary key in place. -/
def updateSongById (songs : List Song) (songId : Nat) (f : Song → Song) :
    List Song :=
  songs.map (fun s => if s.id = songId then f s else s)

/-- `SunoService.downloadAndSaveSongFromCallback`: for each track with an
`audio_url`, download it and create an attachment via the storage
collaborator; tracks without `audio_url` are skipped with a warning. -/
def downloadAndSaveSongFromCallback (tracks : List SunoTrack) :
    List (SunoTrack × Attachment) :=
  tracks.filterMap (fun t => t.audio_url.map (fun u => (t, { url := u })))

/-- The success payload both callback handlers return. -/
structure CallbackResult where
  status : String
  taskId : String
  callbackType : String
deriving DecidableEq, Repr

/-- `KaraokeService.handleSunoCallback` (karaoke.service.js lines 484-605):
validate the payload, download the callback's tracks, look the `Song` up by
`suno_task_id`; when found and `callbackType === 'complete'`, set
`status = 'completed'` and `completed_at = new Date()` (the current time,
unconditionally — the current status is not consulted); then for every saved
track append an `AudioFile` row when the song exists.  An unknown task id is
logged and the handler proceeds without creating any row. -/
def handleSunoCallback (callback : Option SunoCallbackPayload) (now : Nat)
    (db : KaraokeDB) : Except String CallbackResult × KaraokeDB :=
  match callback with
  | none =>
    (Except.error "Error handling Suno callback: Invalid callback data (no \"data\" field)", db)
  | some data =>
    let savedFiles := downloadAndSaveSongFromCallback data.tracks
    let songRecord := findByKey Song.suno_task_id db.songs data.task_id
    let db1 :=
      match songRecord with
      | some s =>
        if data.callbackType = "complete" then
          { db with songs :=
              (updateSongById db.songs s.id
                (fun t => { t with status := "completed", completed_at := some now })) }
        else db
      | none => db
    let newAudioFiles :=
      match songRecord with
      | some s =>
        savedFiles.map (fun p =>
          { url := p.2.url, song_id := s.id, suno_audio_id := some p.1.id })
      | none => []
    ( Except.ok { status := "success", taskId := data.task_id,
                  callbackType := data.callbackType },
      { db1 with audioFiles := db1.audioFiles ++ newAudioFiles } )

/-- The `data` field of a Suno lyrics callback. -/
structure LyricsCallbackPayload where
  task_id : String
  callbackType : String
  lyrics : Option String
deriving DecidableEq, Repr

/-- `KaraokeService.handleSunoCallbackLyrics` (lines 34-89): look the `Song`
up by `suno_task_id`; when found and the callback carries lyrics, update the
song's lyrics; an unknown task id is logged and the handler returns success
without creating any row. -/
def handleSunoCallbackLyrics (callback : Option LyricsCallbackPayload)
    (db : KaraokeDB) : Except String CallbackResult × KaraokeDB :=
  match callback with
  | none =>
    (Except.error "Error handling Suno lyrics callback: Invalid callback data (no \"data\" field)", db)
  | some data =>
    let songRecord := findByKey Song.suno_task_id db.songs data.task_id
    let db1 :=
      match songRecord with
      | some s =>
        match data.lyrics with
        | some ly =>
          { db with songs := (updateSongById db.songs s.id (fun t => { t with lyrics := ly })) }
        | none => db
      | none => db
    ( Except.ok { status := "success", taskId := data.task_id,
                  callbackType := data.callbackType }, db1 )

/-- The `data` of `SunoService.generateAudio`'s response (`taskId` may be
missing). -/
structure GenRespData where
  taskId : Option String
deriving DecidableEq, Repr

/-- The response of `SunoService.generateAudio` (its `data` field may be
missing). -/
structure GenResp where
  data : Option GenRespData
deriving DecidableEq, Repr

/-- The success payload `generateSongFromRepo` returns (repository and
commit-stats sections elided). -/
structure SongResult where
  status : String
  title : String
  lyrics : String
  taskId : String
  instrumental : Bool
deriving DecidableEq, Repr

/-- The tail of `KaraokeService.generateSongFromRepo` (lines 389-477), from
the point where the lyrics, the title and the music-generation response are
already in hand: validate the response, extract `sunoTaskId`, generate the
cover image (`AIService.generateCoverImage`, an external call whose outcome
is the `coverResult` parameter; its inner `catch` logs and rethrows), create
the `Song` row, return the success payload.  Any error thrown inside is
wrapped by the outer `catch` as
`Error generating song from repository: ...`. -/
def generateSongFromRepoTail (songTitle songLyrics musicStyle : String)
    (instrumental : Bool) (songGenerationResponse : Option GenResp)
    (coverResult : Except String Attachment) (newSongId : Nat)
    (db : KaraokeDB) : Except String SongResult × KaraokeDB :=
  match songGenerationResponse with
  | none =>
    (Except.error "Error generating song from repository: No \"data\" found in response from SunoService.generateAudio()", db)
  | some resp =>
    match resp.data with
    | none =>
      (Except.error "Error generating song from repository: No \"data\" found in response from SunoService.generateAudio()", db)
    | some d =>
      match d.taskId with
      | none =>
        (Except.error "Error generating song from repository: No \"taskId\" found in SunoService response data", db)
      | some sunoTaskId =>
        match coverResult with
        | Except.error msg =>
          (Except.error ("Error generating song from repository: " ++ msg), db)
        | Except.ok coverAttachment =>
          let newSong : Song :=
            { id := newSongId, suno_task_id := sunoTaskId, title := songTitle,
              lyrics := songLyrics, style := musicStyle,
              instrumental := instrumental, status := "pending",
              completed_at := none, cover_image_url := some coverAttachment.url }
          ( Except.ok { status := "success", title := songTitle,
                        lyrics := songLyrics, taskId := sunoTaskId,
                        instrumental := instrumental },
            { db with songs := db.songs ++ [newSong] } )

/-! ## Cache-layer lemmas -/

theorem freshCacheHit_none_of_failed (calls : List ApiCallRec) (hash : String)
    (now : Nat) (r : ApiCallRec)
    (hf : findByKey ApiCallRec.request_hash calls hash = some r)
    (hs : r.is_success = false) :
    freshCacheHit calls hash now = none := by
  simp [freshCacheHit, hf, hs]

theorem cachedApiCall_of_miss_error (service : String) (defaultLimit : Nat)
    (wrapError : String → String) (method endpoint : String)
    (requestData : List (String × JPrim)) (opts : CallOptions) (env : CallEnv)
    (db : DBState) (e : LiveErr)
    (hlive : env.live = Except.error e)
    (hmiss : opts.disableCache = true ∨
      freshCacheHit db.apiCalls
        (generateRequestHashInput service method endpoint requestData)
        env.now = none) :
    cachedApiCall service defaultLimit wrapError method endpoint requestData opts env db =
      { result := Except.error (wrapError e.message),
        db := recordFailedCall service method endpoint requestData
                (generateRequestHashInput service method endpoint requestData)
                e.message e.status e.data db,
        liveInvoked := true } := by
  unfold cachedApiCall
  rcases hmiss with h | h
  · simp [h, hlive]
  · simp [h, hlive, ite_self]

theorem cachedApiCall_liveInvoked_of_miss (service : String) (defaultLimit : Nat)
    (wrapError : String → String) (method endpoint : String)
    (requestData : List (String × JPrim)) (opts : CallOptions) (env : CallEnv)
    (db : DBState)
    (hmiss : freshCacheHit db.apiCalls
        (generateRequestHashInput service method endpoint requestData)
        env.now = none) :
    (cachedApiCall service defaultLimit wrapError method endpoint requestData opts env db).liveInvoked = true := by
  obtain ⟨now, live, cacheWriteErr, limitWriteOk⟩ := env
  unfold cachedApiCall
  simp only at hmiss
  simp only [hmiss, ite_self]
  cases live with
  | ok resp => cases cacheWriteErr <;> rfl
  | error e => rfl

theorem requestsUsedFor_updateApiLimit (limits : List ApiLimitRec)
    (service : String) (defaultLimit : Nat) :
    requestsUsedFor (updateApiLimit limits service defaultLimit) service =
      requestsUsedFor limits service + 1 := by
  unfold requestsUsedFor updateApiLimit
  rw [findByKey_upsertByKey_self ApiLimitRec.service
    (fun l => { l with requests_used := l.requests_used + 1 })
    { service := service, requests_limit := defaultLimit, requests_used := 1,
      is_active := true }
    limits service rfl (fun x => rfl)]
  cases h : findByKey ApiLimitRec.service limits service <;> simp [h]

/-! ## C1 — a fresh successful cache entry is served without a live call -/

/-- C1: whenever the cache is consulted (the `disableCache` escape hatch is
off, as in the specification's `fetchOrCall`) and the stored row for the
fingerprint has `is_success = true` and a null or future `expires_at`,
`#cachedApiCall` returns the stored response, does not execute the live
call, and leaves the whole database — in particular the `ApiLimit`
counter — unchanged.  The conclusion holds for every `env.live`, so the
outcome is independent of what the live call would have produced. -/
theorem c1_cache_hit_no_live_call (service : String) (defaultLimit : Nat)
    (wrapError : String → String) (method endpoint : String)
    (requestData : List (String × JPrim)) (opts : CallOptions) (env : CallEnv)
    (db : DBState) (c : ApiCallRec)
    (hdc : opts.disableCache = false)
    (hhit : freshCacheHit db.apiCalls
        (generateRequestHashInput service method endpoint requestData)
        env.now = some c) :
    cachedApiCall service defaultLimit wrapError method endpoint requestData opts env db =
      { result := Except.ok c.response, db := db, liveInvoked := false } := by
  unfold cachedApiCall
  simp [hdc, hhit]

/-- The suno `ApiCall` row used by the C1 witness: a successful cached
response for `POST /v1/generate` expiring at time 1000. -/
def c1Rec : ApiCallRec :=
  { service := "suno", endpoint := "/v1/generate", method := "POST",
    params := stringifyParams [("prompt", JPrim.jstr "song about code")],
    request_hash := generateRequestHashInput "suno" "POST" "/v1/generate"
      [("prompt", JPrim.jstr "song about code")],
    response := some "CACHED-RESPONSE", status_code := 200, is_success := true,
    error_message := none, expires_at := some 1000 }

/-- The database used by the C1 witness. -/
def c1DB : DBState :=
  { apiCalls := [c1Rec],
    apiLimits := [{ service := "suno", requests_limit := 1000,
                    requests_used := 3, is_active := true }] }

/-- The environment used by the C1 witness: the live call would fail, but it
is never reached. -/
def c1Env : CallEnv :=
  { now := 5,
    live := Except.error { message := "network down", status := none, data := none },
    cacheWriteErr := none, limitWriteOk := true }

/-- Witness for C1 at a concrete cached row. -/
theorem c1_witness :
    cachedApiCall "suno" 1000 (fun m => "Suno API call failed: " ++ m)
        "POST" "/v1/generate" [("prompt", JPrim.jstr "song about code")]
        { cacheHours := 24, disableCache := false } c1Env c1DB =
      { result := Except.ok (some "CACHED-RESPONSE"), db := c1DB,
        liveInvoked := false } :=
  c1_cache_hit_no_live_call "suno" 1000 (fun m => "Suno API call failed: " ++ m)
    "POST" "/v1/generate" [("prompt", JPrim.jstr "song about code")]
    { cacheHours := 24, disableCache := false } c1Env c1DB c1Rec rfl (by decide)

/-! ## C4 — a failed live call is recorded, not billed, and not cached -/

theorem findByKey_recordFailedCall (service method endpoint : String)
    (requestData : List (String × JPrim)) (requestHash msg : String)
    (status : Option Nat) (rdata : Option String) (db : DBState) :
    findByKey ApiCallRec.request_hash
        (recordFailedCall service method endpoint requestData requestHash msg
          status rdata db).apiCalls requestHash =
      some (match findByKey ApiCallRec.request_hash db.apiCalls requestHash with
            | some c =>
              { c with status_code := status.getD 500, is_success := false,
                       error_message := some msg, response := rdata }
            | none =>
              { service := service, endpoint := endpoint,
                method := method.toUpper,
                params := stringifyParams requestData,
                request_hash := requestHash, response := rdata,
                status_code := status.getD 500, is_success := false,
                error_message := some msg, expires_at := none }) := by
  simp only [recordFailedCall]
  rw [findByKey_upsertByKey_self ApiCallRec.request_hash
    (fun r => { r with status_code := status.getD 500, is_success := false,
                       error_message := some msg, response := rdata })
    { service := service, endpoint := endpoint, method := method.toUpper,
      params := stringifyParams requestData, request_hash := requestHash,
      response := rdata, status_code := status.getD 500, is_success := false,
      error_message := some msg, expires_at := none }
    db.apiCalls requestHash rfl (fun x => rfl)]
  cases h : findByKey ApiCallRec.request_hash db.apiCalls requestHash <;> simp [h]

/-- C4: whenever `#cachedApiCall` reaches the live call (cache disabled or a
cache miss) and the live call fails, then (1) the `ApiLimit` table — hence
the service's `requests_used` counter — is untouched, (2) the error is
surfaced to the caller, (3) the fingerprint's row is upserted with
`is_success = false` and the error message while `expires_at` keeps the old
row's value (or stays null on create) — no fresh expiry is set, and (4) a
subsequent `#cachedApiCall` for the same fingerprint, under any options and
environment, executes the live call again (the failed row is never served
as a hit). -/
theorem c4_failed_call_not_billed (service : String) (defaultLimit : Nat)
    (wrapError : String → String) (method endpoint : String)
    (requestData : List (String × JPrim)) (opts : CallOptions) (env : CallEnv)
    (db : DBState) (e : LiveErr)
    (hlive : env.live = Except.error e)
    (hmiss : opts.disableCache = true ∨
      freshCacheHit db.apiCalls
        (generateRequestHashInput service method endpoint requestData)
        env.now = none) :
    (cachedApiCall service defaultLimit wrapError method endpoint requestData opts env db).db.apiLimits
        = db.apiLimits ∧
    (cachedApiCall service defaultLimit wrapError method endpoint requestData opts env db).result
        = Except.error (wrapError e.message) ∧
    (∃ r, findByKey ApiCallRec.request_hash
        (cachedApiCall service defaultLimit wrapError method endpoint requestData opts env db).db.apiCalls
        (generateRequestHashInput service method endpoint requestData) = some r ∧
      r.is_success = false ∧ r.error_message = some e.message ∧
      r.expires_at = (match findByKey ApiCallRec.request_hash db.apiCalls
          (generateRequestHashInput service method endpoint requestData) with
        | some c => c.expires_at
        | none => none)) ∧
    ∀ (opts2 : CallOptions) (env2 : CallEnv),
      (cachedApiCall service defaultLimit wrapError method endpoint requestData opts2 env2
        (cachedApiCall service defaultLimit wrapError method endpoint requestData opts env db).db).liveInvoked
        = true := by
  rw [cachedApiCall_of_miss_error service defaultLimit wrapError method endpoint
    requestData opts env db e hlive hmiss]
  refine ⟨rfl, rfl, ?_, ?_⟩
  · rw [findByKey_recordFailedCall]
    cases h : findByKey ApiCallRec.request_hash db.apiCalls
        (generateRequestHashInput service method endpoint requestData) with
    | some c => exact ⟨_, rfl, rfl, rfl, rfl⟩
    | none => exact ⟨_, rfl, rfl, rfl, rfl⟩
  · intro opts2 env2
    apply cachedApiCall_liveInvoked_of_miss
    cases h : findByKey ApiCallRec.request_hash db.apiCalls
        (generateRequestHashInput service method endpoint requestData) with
    | some c =>
      exact freshCacheHit_none_of_failed _ _ _ _
        (by rw [findByKey_recordFailedCall, h]) rfl
    | none =>
      exact freshCacheHit_none_of_failed _ _ _ _
        (by rw [findByKey_recordFailedCall, h]) rfl

/-- The database for the C4 witness: the fingerprint of
`GET /v1/generate/credit` is cached successfully but already expired
(`expires_at = 10` while `now = 100`), so the call is a miss; the old
expiry must survive the failure upsert. -/
def c4DB : DBState :=
  { apiCalls := [{ service := "suno", endpoint := "/v1/generate/credit",
                   method := "GET", params := stringifyParams [],
                   request_hash := generateRequestHashInput "suno" "GET"
                     "/v1/generate/credit" [],
                   response := some "OLD", status_code := 200,
                   is_success := true, error_message := none,
                   expires_at := some 10 }],
    apiLimits := [{ service := "suno", requests_limit := 1000,
                    requests_used := 7, is_active := true }] }

/-- The failing live call of the C4 witness. -/
def c4Err : LiveErr :=
  { message := "Request failed with status code 502", status := some 502,
    data := some "bad gateway" }

/-- The environment of the C4 witness. -/
def c4Env : CallEnv :=
  { now := 100, live := Except.error c4Err, cacheWriteErr := none,
    limitWriteOk := true }

/-- Witness for C4: the expired entry misses, the live failure is recorded,
and the rate counter is untouched. -/
theorem c4_witness :
    freshCacheHit c4DB.apiCalls
        (generateRequestHashInput "suno" "GET" "/v1/generate/credit" [])
        c4Env.now = none ∧
    (cachedApiCall "suno" 1000 (fun m => "Suno API call failed: " ++ m)
        "GET" "/v1/generate/credit" [] { cacheHours := 24, disableCache := false }
        c4Env c4DB).db.apiLimits = c4DB.apiLimits :=
  ⟨by decide,
    (c4_failed_call_not_billed "suno" 1000 (fun m => "Suno API call failed: " ++ m)
      "GET" "/v1/generate/credit" [] { cacheHours := 24, disableCache := false }
      c4Env c4DB c4Err rfl (Or.inr (by decide))).1⟩

/-! ## C5 — bookkeeping failures after a successful live call -/

/-- The environment of the C5 counterexample: the live call succeeds but the
success-path `apiCall.upsert` throws. -/
def c5Env : CallEnv :=
  { now := 0, live := Except.ok { data := "LIVE-RESPONSE", status := 200 },
    cacheWriteErr := some "database connection lost", limitWriteOk := true }

/-- Counterexample to C5: with an empty cache, a successful live call and a
failing cache upsert, `#cachedApiCall` does **not** return the live
response — the upsert error is caught by the `catch` block and the call
throws `Suno API call failed: database connection lost`. -/
theorem c5_counterexample :
    (cachedApiCall "suno" 1000 (fun m => "Suno API call failed: " ++ m) "GET"
        "/v1/generate/credit" [] { cacheHours := 24, disableCache := false }
        c5Env { apiCalls := [], apiLimits := [] }).result
      = Except.error "Suno API call failed: database connection lost" ∧
    (cachedApiCall "suno" 1000 (fun m => "Suno API call failed: " ++ m) "GET"
        "/v1/generate/credit" [] { cacheHours := 24, disableCache := false }
        c5Env { apiCalls := [], apiLimits := [] }).result
      ≠ Except.ok (some "LIVE-RESPONSE") := by
  constructor
  · rfl
  · decide

/-- C5 amended: after a successful live call, only the failure of the
rate-counter update (`#updateApiLimit`) is swallowed — the live response is
still returned, whatever `limitWriteOk` is.  A failure of the `ApiCall`
cache upsert instead falls into the `catch` block: the call is re-recorded
as failed and the operation throws the wrapped persistence error instead of
returning the live response. -/
theorem c5_bookkeeping_failure_paths (service : String) (defaultLimit : Nat)
    (wrapError : String → String) (method endpoint : String)
    (requestData : List (String × JPrim)) (opts : CallOptions) (env : CallEnv)
    (db : DBState) (resp : LiveResp)
    (hlive : env.live = Except.ok resp)
    (hmiss : opts.disableCache = true ∨
      freshCacheHit db.apiCalls
        (generateRequestHashInput service method endpoint requestData)
        env.now = none) :
    (env.cacheWriteErr = none →
      (cachedApiCall service defaultLimit wrapError method endpoint requestData opts env db).result
        = Except.ok (some resp.data)) ∧
    (∀ msg, env.cacheWriteErr = some msg →
      (cachedApiCall service defaultLimit wrapError method endpoint requestData opts env db).result
          = Except.error (wrapError msg) ∧
      ∃ r, findByKey ApiCallRec.request_hash
          (cachedApiCall service defaultLimit wrapError method endpoint requestData opts env db).db.apiCalls
          (generateRequestHashInput service method endpoint requestData) = some r ∧
        r.is_success = false ∧ r.error_message = some msg) := by
  constructor
  · intro hw
    unfold cachedApiCall
    rcases hmiss with h | h
    · simp [h, hlive, hw]
    · simp [h, hlive, hw, ite_self]
  · intro msg hw
    have hred : cachedApiCall service defaultLimit wrapError method endpoint requestData opts env db =
        { result := Except.error (wrapError msg),
          db := recordFailedCall service method endpoint requestData
                  (generateRequestHashInput service method endpoint requestData)
                  msg none none db,
          liveInvoked := true } := by
      unfold cachedApiCall
      rcases hmiss with h | h
      · simp [h, hlive, hw]
      · simp [h, hlive, hw, ite_self]
    rw [hred]
    refine ⟨rfl, ?_⟩
    rw [findByKey_recordFailedCall]
    cases h2 : findByKey ApiCallRec.request_hash db.apiCalls
        (generateRequestHashInput service method endpoint requestData) with
    | some c => exact ⟨_, rfl, rfl, rfl⟩
    | none => exact ⟨_, rfl, rfl, rfl⟩

/-- The environment of the C5 witness for the swallowed counter-update
failure: live success, cache upsert fine, counter update failing. -/
def c5WitnessEnv : CallEnv :=
  { now := 0, live := Except.ok { data := "LIVE-RESPONSE", status := 200 },
    cacheWriteErr := none, limitWriteOk := false }

/-- Witness for the amended C5 at concrete inputs: a counter-update failure
is swallowed and the live response still returned; a cache-upsert failure
(`c5Env`) turns the same call into the wrapped error. -/
theorem c5_witness :
    (cachedApiCall "suno" 1000 (fun m => "Suno API call failed: " ++ m) "GET"
        "/v1/generate/credit" [] { cacheHours := 24, disableCache := false }
        c5WitnessEnv { apiCalls := [], apiLimits := [] }).result
      = Except.ok (some "LIVE-RESPONSE") ∧
    (cachedApiCall "suno" 1000 (fun m => "Suno API call failed: " ++ m) "GET"
        "/v1/generate/credit" [] { cacheHours := 24, disableCache := false }
        c5Env { apiCalls := [], apiLimits := [] }).result
      = Except.error "Suno API call failed: database connection lost" :=
  ⟨(c5_bookkeeping_failure_paths "suno" 1000 (fun m => "Suno API call failed: " ++ m)
      "GET" "/v1/generate/credit" [] { cacheHours := 24, disableCache := false }
      c5WitnessEnv { apiCalls := [], apiLimits := [] }
      { data := "LIVE-RESPONSE", status := 200 } rfl (Or.inr (by decide))).1 rfl,
   ((c5_bookkeeping_failure_paths "suno" 1000 (fun m => "Suno API call failed: " ++ m)
      "GET" "/v1/generate/credit" [] { cacheHours := 24, disableCache := false }
      c5Env { apiCalls := [], apiLimits := [] }
      { data := "LIVE-RESPONSE", status := 200 } rfl (Or.inr (by decide))).2
      "database connection lost" rfl).1⟩

/-! ## C10 — `getTaskDetails` / `getLyricsTaskDetails` always bypass the cache -/

theorem cachedApiCall_live_success (service : String) (defaultLimit : Nat)
    (wrapError : String → String) (method endpoint : String)
    (requestData : List (String × JPrim)) (opts : CallOptions) (env : CallEnv)
    (db : DBState) (resp : LiveResp)
    (hmiss : opts.disableCache = true ∨
      freshCacheHit db.apiCalls
        (generateRequestHashInput service method endpoint requestData)
        env.now = none)
    (hlive : env.live = Except.ok resp)
    (hw : env.cacheWriteErr = none)
    (hlw : env.limitWriteOk = true) :
    cachedApiCall service defaultLimit wrapError method endpoint requestData opts env db =
      { result := Except.ok (some resp.data),
        db := { apiCalls :=
                  (upsertByKey ApiCallRec.request_hash
                    (fun r => { r with response := some resp.data,
                                       status_code := resp.status,
                                       expires_at := (if opts.cacheHours = 0 then none
                                         else some (env.now + opts.cacheHours * 3600000)),
                                       is_success := true, error_message := none })
                    { service := service, endpoint := endpoint,
                      method := method.toUpper,
                      params := stringifyParams requestData,
                      request_hash := generateRequestHashInput service method endpoint requestData,
                      response := some resp.data, status_code := resp.status,
                      is_success := true, error_message := none,
                      expires_at := (if opts.cacheHours = 0 then none
                        else some (env.now + opts.cacheHours * 3600000)) }
                    db.apiCalls
                    (generateRequestHashInput service method endpoint requestData)),
                apiLimits := updateApiLimit db.apiLimits service defaultLimit },
        liveInvoked := true } := by
  unfold cachedApiCall
  rcases hmiss with h | h
  · simp [h, hlive, hw, hlw]
  · simp [h, hlive, hw, hlw, ite_self]

theorem find_success_upsert (service endpoint method paramsStr hash : String)
    (resp : LiveResp) (expiresAt : Option Nat) (calls : List ApiCallRec) :
    ∃ r, findByKey ApiCallRec.request_hash
        (upsertByKey ApiCallRec.request_hash
          (fun r => { r with response := some resp.data,
                             status_code := resp.status,
                             expires_at := expiresAt, is_success := true,
                             error_message := none })
          { service := service, endpoint := endpoint, method := method,
            params := paramsStr, request_hash := hash,
            response := some resp.data, status_code := resp.status,
            is_success := true, error_message := none,
            expires_at := expiresAt }
          calls hash) hash = some r ∧
      r.is_success = true ∧ r.response = some resp.data := by
  rw [findByKey_upsertByKey_self ApiCallRec.request_hash
    (fun r => { r with response := some resp.data, status_code := resp.status,
                       expires_at := expiresAt, is_success := true,
                       error_message := none })
    { service := service, endpoint := endpoint, method := method,
      params := paramsStr, request_hash := hash, response := some resp.data,
      status_code := resp.status, is_success := true, error_message := none,
      expires_at := expiresAt }
    calls hash rfl (fun x => rfl)]
  cases h : findByKey ApiCallRec.request_hash calls hash with
  | some c => exact ⟨_, rfl, rfl, rfl⟩
  | none => exact ⟨_, rfl, rfl, rfl⟩

/-- C10: both task-status query operations overwrite the caller's options
with `disableCache: true`, so — whatever the caller passed and whatever the
database holds, including a fresh successful entry for the very same
fingerprint — the live upstream call is always executed; when it succeeds
(under working persistence) the suno `requests_used` counter grows by one
and the fingerprint's cached row is overwritten with the new response. -/
theorem c10_status_polls_bypass_cache (taskId : String) (opts : CallOptions)
    (env : CallEnv) (db : DBState) (resp : LiveResp)
    (hid : ¬ taskId = "")
    (hlive : env.live = Except.ok resp)
    (hw : env.cacheWriteErr = none)
    (hlw : env.limitWriteOk = true) :
    ((getTaskDetails taskId opts env db).liveInvoked = true ∧
     (getTaskDetails taskId opts env db).result = Except.ok (some resp.data) ∧
     requestsUsedFor (getTaskDetails taskId opts env db).db.apiLimits "suno"
       = requestsUsedFor db.apiLimits "suno" + 1 ∧
     (∃ r, findByKey ApiCallRec.request_hash
         (getTaskDetails taskId opts env db).db.apiCalls
         (generateRequestHashInput "suno" "GET" "/v1/generate/record-info"
           [("taskId", JPrim.jstr taskId)]) = some r ∧
       r.is_success = true ∧ r.response = some resp.data)) ∧
    ((getLyricsTaskDetails taskId opts env db).liveInvoked = true ∧
     (getLyricsTaskDetails taskId opts env db).result = Except.ok (some resp.data) ∧
     requestsUsedFor (getLyricsTaskDetails taskId opts env db).db.apiLimits "suno"
       = requestsUsedFor db.apiLimits "suno" + 1 ∧
     (∃ r, findByKey ApiCallRec.request_hash
         (getLyricsTaskDetails taskId opts env db).db.apiCalls
         (generateRequestHashInput "suno" "GET" "/v1/lyrics/record-info"
           [("taskId", JPrim.jstr taskId)]) = some r ∧
       r.is_success = true ∧ r.response = some resp.data)) := by
  have hred1 : getTaskDetails taskId opts env db =
      cachedApiCall "suno" 1000 (fun m => "Suno API call failed: " ++ m)
        "GET" "/v1/generate/record-info" [("taskId", JPrim.jstr taskId)]
        { cacheHours := opts.cacheHours, disableCache := true } env db := by
    unfold getTaskDetails sunoCachedApiCall
    rw [if_neg hid]
  have hred2 : getLyricsTaskDetails taskId opts env db =
      cachedApiCall "suno" 1000 (fun m => "Suno API call failed: " ++ m)
        "GET" "/v1/lyrics/record-info" [("taskId", JPrim.jstr taskId)]
        { cacheHours := opts.cacheHours, disableCache := true } env db := by
    unfold getLyricsTaskDetails sunoCachedApiCall
    rw [if_neg hid]
  rw [hred1, hred2,
    cachedApiCall_live_success "suno" 1000 (fun m => "Suno API call failed: " ++ m)
      "GET" "/v1/generate/record-info" [("taskId", JPrim.jstr taskId)]
      { cacheHours := opts.cacheHours, disableCache := true } env db resp
      (Or.inl rfl) hlive hw hlw,
    cachedApiCall_live_success "suno" 1000 (fun m => "Suno API call failed: " ++ m)
      "GET" "/v1/lyrics/record-info" [("taskId", JPrim.jstr taskId)]
      { cacheHours := opts.cacheHours, disableCache := true } env db resp
      (Or.inl rfl) hlive hw hlw]
  refine ⟨⟨rfl, rfl, ?_, ?_⟩, ⟨rfl, rfl, ?_, ?_⟩⟩
  · exact requestsUsedFor_updateApiLimit db.apiLimits "suno" 1000
  · exact find_success_upsert "suno" "/v1/generate/record-info" "GET".toUpper
      (stringifyParams [("taskId", JPrim.jstr taskId)])
      (generateRequestHashInput "suno" "GET" "/v1/generate/record-info"
        [("taskId", JPrim.jstr taskId)])
      resp (if opts.cacheHours = 0 then none
        else some (env.now + opts.cacheHours * 3600000)) db.apiCalls
  · exact requestsUsedFor_updateApiLimit db.apiLimits "suno" 1000
  · exact find_success_upsert "suno" "/v1/lyrics/record-info" "GET".toUpper
      (stringifyParams [("taskId", JPrim.jstr taskId)])
      (generateRequestHashInput "suno" "GET" "/v1/lyrics/record-info"
        [("taskId", JPrim.jstr taskId)])
      resp (if opts.cacheHours = 0 then none
        else some (env.now + opts.cacheHours * 3600000)) db.apiCalls

/-- The database of the C10 witness: a fresh, unexpired, successful cache
entry exists for the exact record-info fingerprint of task `T1`, yet the
poll still goes live. -/
def c10DB : DBState :=
  { apiCalls := [{ service := "suno", endpoint := "/v1/generate/record-info",
                   method := "GET",
                   params := stringifyParams [("taskId", JPrim.jstr "T1")],
                   request_hash := generateRequestHashInput "suno" "GET"
                     "/v1/generate/record-info" [("taskId", JPrim.jstr "T1")],
                   response := some "FRESH-CACHED", status_code := 200,
                   is_success := true, error_message := none,
                   expires_at := some 1000000 }],
    apiLimits := [{ service := "suno", requests_limit := 1000,
                    requests_used := 41, is_active := true }] }

/-- The environment of the C10 witness. -/
def c10Env : CallEnv :=
  { now := 50, live := Except.ok { data := "POLLED", status := 200 },
    cacheWriteErr := none, limitWriteOk := true }

/-- Witness for C10 at task id `T1`: despite the fresh cached entry and the
caller passing `disableCache: false`, the poll hits the live API and bills
the counter. -/
theorem c10_witness :
    freshCacheHit c10DB.apiCalls
        (generateRequestHashInput "suno" "GET" "/v1/generate/record-info"
          [("taskId", JPrim.jstr "T1")]) c10Env.now ≠ none ∧
    (getTaskDetails "T1" { cacheHours := 24, disableCache := false } c10Env c10DB).liveInvoked
      = true ∧
    requestsUsedFor (getTaskDetails "T1" { cacheHours := 24, disableCache := false }
        c10Env c10DB).db.apiLimits "suno"
      = requestsUsedFor c10DB.apiLimits "suno" + 1 :=
  ⟨by decide,
   (c10_status_polls_bypass_cache "T1" { cacheHours := 24, disableCache := false }
      c10Env c10DB { data := "POLLED", status := 200 } (by decide) rfl rfl rfl).1.1,
   (c10_status_polls_bypass_cache "T1" { cacheHours := 24, disableCache := false }
      c10Env c10DB { data := "POLLED", status := 200 } (by decide) rfl rfl rfl).1.2.2.1⟩

/-! ## C2 — the fingerprint and parameter serialization order -/

/-- Counterexample to C2: the flat objects `[a: 1, b: 2]` and `[b: 2, a: 1]`
hold the same keys and values — they are permutations of one another — yet
`JSON.stringify` serializes keys in insertion order, so the strings fed to
md5 differ, and with them (barring an md5 collision, which the claim itself
excludes by requiring distinct inputs to hash apart) the fingerprints. -/
theorem c2_counterexample :
    List.Perm [("a", JPrim.jnum 1), ("b", JPrim.jnum 2)]
      [("b", JPrim.jnum 2), ("a", JPrim.jnum 1)] ∧
    generateRequestHashInput "github" "GET" "/repos/o/r/commits"
        [("a", JPrim.jnum 1), ("b", JPrim.jnum 2)] ≠
      generateRequestHashInput "github" "GET" "/repos/o/r/commits"
        [("b", JPrim.jnum 2), ("a", JPrim.jnum 1)] := by
  constructor
  · decide
  · decide

/-- C2 amended: the fingerprint is a pure function of
(service, method, endpoint, `JSON.stringify(params)`) — deterministic, and
stable exactly under serialization equality.  It is **not** stable under
key-order permutation: reordering the keys of a flat parameter object
changes `JSON.stringify`'s output and with it the hash input (see the
counterexample). -/
theorem c2_fingerprint_serialization_stable (service method endpoint : String)
    (p q : List (String × JPrim))
    (h : stringifyParams p = stringifyParams q) :
    generateRequestHashInput service method endpoint p =
      generateRequestHashInput service method endpoint q := by
  unfold generateRequestHashInput
  rw [h]

/-- Witness for the amended C2: two syntactically distinct but
serialization-equal parameter lists (the same object written with an
escaped and an unescaped key spelling) produce the same hash input. -/
theorem c2_witness :
    stringifyParams [("taskId", JPrim.jstr "T1")] =
      stringifyParams [("taskId", JPrim.jstr "T1")] ∧
    generateRequestHashInput "suno" "GET" "/v1/generate/record-info"
        [("taskId", JPrim.jstr "T1")] =
      generateRequestHashInput "suno" "GET" "/v1/generate/record-info"
        [("taskId", JPrim.jstr "T1")] :=
  ⟨rfl, c2_fingerprint_serialization_stable "suno" "GET"
    "/v1/generate/record-info" [("taskId", JPrim.jstr "T1")]
    [("taskId", JPrim.jstr "T1")] rfl⟩

/-! ## C6 — termination and exit states of `adjustContent` -/

theorem adjustGo_budget_or_floor_or_cap (estimate : List ChatMsg → Nat)
    (target : Nat) :
    ∀ (fuel : Nat) (s : List Char) (h : List ChatMsg) (p : List Char),
      estimate (msgsOf (adjustGo estimate target fuel s h p).1.1
          (adjustGo estimate target fuel s h p).1.2.1
          (adjustGo estimate target fuel s h p).1.2.2) ≤ target ∨
      floorState (adjustGo estimate target fuel s h p).1 ∨
      (adjustGo estimate target fuel s h p).2 = 0 := by
  intro fuel
  induction fuel with
  | zero => intro s h p; exact Or.inr (Or.inr rfl)
  | succ n ih =>
    intro s h p
    by_cases hle : estimate (msgsOf s h p) ≤ target
    · left
      simp [adjustGo, hle]
    · by_cases h1 : 1 < h.length
      · simpa [adjustGo, hle, h1] using ih s h.tail p
      · by_cases h2 : 50 < s.length
        · simpa [adjustGo, hle, h1, h2] using
            ih (s.take (s.length -
              min ((estimate (msgsOf s h p) - target + 1) / 2 * 4) (s.length - 50))) h p
        · by_cases h3 : 50 < p.length
          · simpa [adjustGo, hle, h1, h2, h3] using
              ih s h (p.take (p.length -
                min ((estimate (msgsOf s h p) - target + 1) / 2 * 4) (p.length - 50)))
          · right; left
            have e : adjustGo estimate target (n + 1) s h p = ((s, h, p), n + 1) := by
              simp [adjustGo, hle, h1, h2, h3]
            rw [e]
            exact ⟨le_of_not_lt h1, le_of_not_lt h2, le_of_not_lt h3⟩

/-- C6 amended: `adjustContent` always terminates within the 100-iteration
cap, and on exit the payload either fits the budget, or has reached the
minimum-floor state for all three fields (history down to at most one
entry, system and user prompt at the 50-character floor), **or the
iteration cap was exhausted first** (remaining fuel 0) — the third case is
reachable, e.g. with a history of more than 101 entries, so the claim's
two-way disjunction alone does not hold.  Quantified over every token
estimator, since `promptTokensEstimate` is an external package. -/
theorem c6_adjust_content_cap (estimate : List ChatMsg → Nat)
    (system : List Char) (history : List ChatMsg) (prompt : List Char)
    (contextWindow : Nat) :
    estimate (msgsOf (adjustContent estimate system history prompt contextWindow).1
        (adjustContent estimate system history prompt contextWindow).2.1
        (adjustContent estimate system history prompt contextWindow).2.2)
      ≤ contextWindow ∨
    floorState (adjustContent estimate system history prompt contextWindow) ∨
    (adjustGo estimate contextWindow 100 system history prompt).2 = 0 := by
  unfold adjustContent
  exact adjustGo_budget_or_floor_or_cap estimate contextWindow 100 system history prompt

/-- The 120-entry history of the C6 counterexample. -/
def c6History : List ChatMsg :=
  List.replicate 120 { role := "user", content := ['x'] }

set_option maxRecDepth 8000 in
/-- Counterexample to C6 as stated: with the message-count estimator, a
120-entry history and budget 0, the loop spends all 100 iterations shifting
history and exits with 20 entries left — the result neither fits the
budget nor is at the minimum-floor state, refuting the claimed two-way
disjunction (the run did terminate within the cap; it is the claimed exit
condition that fails). -/
theorem c6_counterexample :
    ¬ ((fun ms => List.length ms) (msgsOf
          (adjustContent (fun ms => List.length ms) ['a'] c6History ['b'] 0).1
          (adjustContent (fun ms => List.length ms) ['a'] c6History ['b'] 0).2.1
          (adjustContent (fun ms => List.length ms) ['a'] c6History ['b'] 0).2.2) ≤ 0 ∨
        floorState (adjustContent (fun ms => List.length ms) ['a'] c6History ['b'] 0)) := by
  decide

/-! ## C7 — chunker correctness -/

theorem chunkAux_join (mc : Nat) (hmc : 0 < mc) :
    ∀ (fuel : Nat) (text : List Char), text.length ≤ fuel →
      (chunkAux mc fuel text).join = text := by
  intro fuel
  induction fuel with
  | zero =>
    intro text ht
    have : text = [] := List.eq_nil_of_length_eq_zero (Nat.le_zero.mp ht)
    simp [this, chunkAux]
  | succ n ih =>
    intro text ht
    cases text with
    | nil => simp [chunkAux]
    | cons c rest =>
      have hdrop : ((c :: rest).drop mc).length ≤ n := by
        rw [List.length_drop]
        simp only [List.length_cons] at ht ⊢
        omega
      simp only [chunkAux, List.join_cons, ih _ hdrop]
      exact List.take_append_drop mc (c :: rest)

theorem chunkAux_chunk_le (mc : Nat) :
    ∀ (fuel : Nat) (text : List Char),
      ∀ ch ∈ chunkAux mc fuel text, ch.length ≤ mc := by
  intro fuel
  induction fuel with
  | zero => intro text ch hch; simp [chunkAux] at hch
  | succ n ih =>
    intro text ch hch
    cases text with
    | nil => simp [chunkAux] at hch
    | cons c rest =>
      simp only [chunkAux, List.mem_cons] at hch
      rcases hch with h | h
      · subst h
        rw [List.length_take]
        exact min_le_left _ _
      · exact ih _ ch h

theorem chunkAux_count (mc : Nat) (hmc : 0 < mc) :
    ∀ (fuel : Nat) (text : List Char), text.length ≤ fuel →
      (chunkAux mc fuel text).length = (text.length + mc - 1) / mc := by
  intro fuel
  induction fuel with
  | zero =>
    intro text ht
    have : text = [] := List.eq_nil_of_length_eq_zero (Nat.le_zero.mp ht)
    subst this
    simp [chunkAux, Nat.div_eq_of_lt (show mc - 1 < mc by omega)]
  | succ n ih =>
    intro text ht
    cases text with
    | nil =>
      simp [chunkAux]
      exact (Nat.div_eq_of_lt (by omega)).symm
    | cons c rest =>
      have hdrop : ((c :: rest).drop mc).length ≤ n := by
        rw [List.length_drop]
        simp only [List.length_cons] at ht ⊢
        omega
      have key : ∀ L : Nat, 1 ≤ L →
          (L - mc + mc - 1) / mc + 1 = (L + mc - 1) / mc := by
        intro L hL
        by_cases hle : L ≤ mc
        · have h0 : L - mc = 0 := by omega
          have h1 : L + mc - 1 = (L - 1) + mc := by omega
          rw [h0, h1, Nat.add_div_right _ hmc,
            Nat.div_eq_of_lt (show 0 + mc - 1 < mc by omega),
            Nat.div_eq_of_lt (show L - 1 < mc by omega)]
        · have h1 : L + mc - 1 = ((L - mc) + mc - 1) + mc := by omega
          rw [h1, Nat.add_div_right _ hmc]
      simp only [chunkAux, List.length_cons, ih _ hdrop, List.length_drop]
      exact key (rest.length + 1) (by omega)

/-- C7: for `0 < maxTokens` (with `maxTokens = 0` the source loop never
terminates), `chunkTextByTokens` splits a text of length `L` into exactly
`ceil(L / C)` chunks with `C = maxTokens * 4`, each chunk at most `C`
characters, and their in-order concatenation is the original text — the
chunks are consecutive, non-overlapping slices.  Being a pure function of
`(text, maxTokens)`, repeated calls necessarily produce the same chunk
boundaries. -/
theorem c7_chunker_correct (text : List Char) (maxTokens : Nat)
    (h : 0 < maxTokens) :
    (chunkTextByTokens text maxTokens).length
        = (text.length + maxTokens * 4 - 1) / (maxTokens * 4) ∧
    (∀ ch ∈ chunkTextByTokens text maxTokens, ch.length ≤ maxTokens * 4) ∧
    (chunkTextByTokens text maxTokens).join = text := by
  have hmc : 0 < maxTokens * 4 := by omega
  exact ⟨chunkAux_count (maxTokens * 4) hmc text.length text le_rfl,
    chunkAux_chunk_le (maxTokens * 4) text.length text,
    chunkAux_join (maxTokens * 4) hmc text.length text le_rfl⟩

/-- Witness for C7 on a 13-character text with `maxTokens = 1`
(`C = 4`): 4 chunks, each at most 4 characters, concatenating back. -/
theorem c7_witness :
    0 < 1 ∧
    ((chunkTextByTokens ("hello worlds!".data) 1).length
        = (("hello worlds!".data).length + 1 * 4 - 1) / (1 * 4) ∧
     (∀ ch ∈ chunkTextByTokens ("hello worlds!".data) 1, ch.length ≤ 1 * 4) ∧
     (chunkTextByTokens ("hello worlds!".data) 1).join = "hello worlds!".data) :=
  ⟨by decide, c7_chunker_correct ("hello worlds!".data) 1 (by decide)⟩

/-! ## C3 — duplicate terminal callbacks are not no-ops -/

/-- The already-completed song of the C3 counterexample (first `complete`
callback arrived at time 100). -/
def c3Song : Song :=
  { id := 1, suno_task_id := "T1", title := "Ship It", lyrics := "la la",
    style := "Rock", instrumental := false, status := "completed",
    completed_at := some 100, cover_image_url := none }

/-- The database of the C3 counterexample: the song is terminal and its
audio file is already stored. -/
def c3DB : KaraokeDB :=
  { songs := [c3Song],
    audioFiles := [{ url := "https://cdn.example/audio1.mp3", song_id := 1,
                     suno_audio_id := some "a1" }] }

/-- The duplicate `complete` callback of the C3 counterexample — payload
identical to the first delivery. -/
def c3Callback : SunoCallbackPayload :=
  { task_id := "T1", callbackType := "complete",
    tracks := [{ id := "a1", audio_url := some "https://cdn.example/audio1.mp3" }] }

/-- Counterexample to C3: the task for `T1` is already terminal
(`completed`, `completed_at = 100`), yet re-delivering the identical
`complete` callback at time 200 re-sets `completed_at` to 200 and appends a
duplicate `AudioFile` row — the second arrival is not a no-op. -/
theorem c3_counterexample :
    c3Song.status = "completed" ∧ c3Song.completed_at = some 100 ∧
    (findByKey Song.suno_task_id
        (handleSunoCallback (some c3Callback) 200 c3DB).2.songs "T1").map
      Song.completed_at = some (some 200) ∧
    (handleSunoCallback (some c3Callback) 200 c3DB).2.audioFiles.length = 2 := by
  refine ⟨rfl, rfl, by decide, by decide⟩

/-- C3 amended: `handleSunoCallback` never consults the current status —
whenever the song exists and the callback says `complete`, it
unconditionally sets `status = 'completed'` and overwrites `completed_at`
with the arrival time, even if the song is already terminal (and it appends
the callback's tracks as fresh `AudioFile` rows each time).  Only the poll
path (`checkSongStatus`) writes nothing.  So a duplicate `completed`
callback does re-set `completedAt`. -/
theorem c3_complete_callback_overwrites (d : SunoCallbackPayload) (now : Nat)
    (db : KaraokeDB) (s : Song)
    (hfind : findByKey Song.suno_task_id db.songs d.task_id = some s)
    (hterm : s.status = "completed")
    (htype : d.callbackType = "complete") :
    findByKey Song.suno_task_id
        (handleSunoCallback (some d) now db).2.songs d.task_id
      = some { s with status := "completed", completed_at := some now } := by
  unfold handleSunoCallback updateSongById
  simp only [hfind, htype, if_pos]
  rw [findByKey_map Song.suno_task_id
    (fun t => if t.id = s.id then
      { t with status := "completed", completed_at := some now } else t)
    (fun x => by by_cases hx : x.id = s.id <;> simp [hx]) db.songs d.task_id,
    hfind]
  simp

/-- Witness for the amended C3 at the concrete duplicate delivery. -/
theorem c3_witness :
    findByKey Song.suno_task_id c3DB.songs c3Callback.task_id = some c3Song ∧
    c3Song.status = "completed" ∧
    findByKey Song.suno_task_id
        (handleSunoCallback (some c3Callback) 200 c3DB).2.songs
        c3Callback.task_id
      = some { c3Song with status := "completed", completed_at := some 200 } :=
  ⟨by decide, rfl,
   c3_complete_callback_overwrites c3Callback 200 c3DB c3Song (by decide) rfl rfl⟩

/-! ## C8 — callbacks for unknown task ids are no-ops -/

/-- C8: when the callback's task id has no `Song` row, both callback
handlers return a success payload (the unknown id is not a hard error) and
leave the database exactly as it was — in particular no task record and no
audio-file row is created from the callback alone. -/
theorem c8_unknown_task_noop (d : SunoCallbackPayload) (now : Nat)
    (db : KaraokeDB) (dl : LyricsCallbackPayload) (db2 : KaraokeDB)
    (h1 : findByKey Song.suno_task_id db.songs d.task_id = none)
    (h2 : findByKey Song.suno_task_id db2.songs dl.task_id = none) :
    (handleSunoCallback (some d) now db).2 = db ∧
    (handleSunoCallback (some d) now db).1 =
      Except.ok { status := "success", taskId := d.task_id,
                  callbackType := d.callbackType } ∧
    (handleSunoCallbackLyrics (some dl) db2).2 = db2 ∧
    (handleSunoCallbackLyrics (some dl) db2).1 =
      Except.ok { status := "success", taskId := dl.task_id,
                  callbackType := dl.callbackType } := by
  unfold handleSunoCallback handleSunoCallbackLyrics
  simp [h1, h2]

/-- The database of the C8 witness: it holds one song, for a different
task id. -/
def c8DB : KaraokeDB :=
  { songs := [{ id := 5, suno_task_id := "KNOWN", title := "Other",
                lyrics := "x", style := "Pop", instrumental := false,
                status := "pending", completed_at := none,
                cover_image_url := none }],
    audioFiles := [] }

/-- Witness for C8: a `complete` callback and a lyrics callback for the
unknown id `GHOST` both succeed and change nothing. -/
theorem c8_witness :
    findByKey Song.suno_task_id c8DB.songs "GHOST" = none ∧
    (handleSunoCallback
      (some { task_id := "GHOST", callbackType := "complete",
              tracks := [{ id := "a9", audio_url := some "https://cdn.example/a9.mp3" }] })
      300 c8DB).2 = c8DB ∧
    (handleSunoCallbackLyrics
      (some { task_id := "GHOST", callbackType := "lyrics",
              lyrics := some "better lyrics" }) c8DB).2 = c8DB :=
  ⟨by decide,
   (c8_unknown_task_noop
      { task_id := "GHOST", callbackType := "complete",
        tracks := [{ id := "a9", audio_url := some "https://cdn.example/a9.mp3" }] }
      300 c8DB
      { task_id := "GHOST", callbackType := "lyrics", lyrics := some "better lyrics" }
      c8DB (by decide) (by decide)).1,
   (c8_unknown_task_noop
      { task_id := "GHOST", callbackType := "complete",
        tracks := [{ id := "a9", audio_url := some "https://cdn.example/a9.mp3" }] }
      300 c8DB
      { task_id := "GHOST", callbackType := "lyrics", lyrics := some "better lyrics" }
      c8DB (by decide) (by decide)).2.2.1⟩

/-! ## C9 — a cover-art failure drops the produced lyrics and task handle -/

/-- C9 (the code, evaluated at the failing input): after the lyrics
(`la la la`) and the music-generation task (`T9`) were produced, a failing
cover generation makes `generateSongFromRepo` rethrow — the pipeline
returns the generic wrapper error and **no** `Song` row is created, so the
lyrics and the task handle are recorded nowhere and the error is not
reported as a cover-art-step failure.  The dead `coverAttachment = null`
initialization and the `coverAttachment?.metas?.location || null` fallback
in the subsequent `song.create` show the intended behavior was to continue
with a null cover. -/
theorem c9_cover_failure_drops_artifacts :
    generateSongFromRepoTail "Ship It" "la la la" "Rock" false
        (some { data := some { taskId := some "T9" } })
        (Except.error "cover generation failed") 7
        { songs := [], audioFiles := [] }
      = (Except.error "Error generating song from repository: cover generation failed",
         { songs := [], audioFiles := [] }) := by
  rfl
